import Mathlib

/-!
Verification of the streamr-network WebSocket endpoint, resend handler and
peer-identity layer: a shallow embedding of the JavaScript sources
(WsEndpoint.js, ResendHandler.js, and the PeerInfo/PeerBook data model) as
executable Lean definitions, followed by theorems settling the specified
behaviours.
-/

namespace Streamr

/-! ### Peer identity (PeerInfo) -/

/-- Modelled from the spec: `PeerInfo.js` is not among the given sources (only
its unit tests are). The peer type is drawn from the closed set
node, storage, tracker, unknown. -/
inductive PeerType where
  | node
  | storage
  | tracker
  | unknown
deriving DecidableEq, Repr

/-- Modelled from the spec: the string spelling of each peer type, as used in
the `streamr-peer-type` header and by the `PeerInfo` constructor. -/
def peerTypeFromString (s : String) : Option PeerType :=
  if s = "node" then some PeerType.node
  else if s = "storage" then some PeerType.storage
  else if s = "tracker" then some PeerType.tracker
  else if s = "unknown" then some PeerType.unknown
  else none

/-- Modelled from the spec: a `PeerInfo` carries an opaque peer identifier and
a peer type. -/
structure PeerInfo where
  peerId : String
  peerType : PeerType
deriving DecidableEq, Repr

/-- Modelled from the spec: the `PeerInfo` constructor validates the peer-type
string and throws on any string outside the closed set; `none` is the thrown
error. -/
def PeerInfo.new (peerId : String) (peerTypeStr : String) : Option PeerInfo :=
  (peerTypeFromString peerTypeStr).map fun t => { peerId := peerId, peerType := t }

/-- Modelled from the spec and the unit tests: storage is a node. -/
def PeerInfo.isNode (p : PeerInfo) : Bool :=
  p.peerType == PeerType.node || p.peerType == PeerType.storage

/-- Modelled from the spec and the unit tests. -/
def PeerInfo.isStorage (p : PeerInfo) : Bool :=
  p.peerType == PeerType.storage

/-- Modelled from the spec and the unit tests. -/
def PeerInfo.isTracker (p : PeerInfo) : Bool :=
  p.peerType == PeerType.tracker

/-- Modelled from the spec: `PeerInfo.newNode(id)` factory of the unit tests. -/
def PeerInfo.newNode (id : String) : PeerInfo := { peerId := id, peerType := PeerType.node }

/-- Modelled from the spec: `PeerInfo.newStorage(id)` factory of the unit tests. -/
def PeerInfo.newStorage (id : String) : PeerInfo := { peerId := id, peerType := PeerType.storage }

/-- Modelled from the spec: `PeerInfo.newTracker(id)` factory of the unit tests. -/
def PeerInfo.newTracker (id : String) : PeerInfo := { peerId := id, peerType := PeerType.tracker }

/-! ### WsEndpoint constants (WsEndpoint.js lines 13-39) -/

def HIGH_BACK_PRESSURE : Nat := 1024 * 1024 * 2

def LOW_BACK_PRESSURE : Nat := 1024 * 1024

/-- `WS_BUFFER_SIZE = HIGH_BACK_PRESSURE + 1024`; the source comment next to it
reads "add 1 MB safety margin" although the addend is 1024 bytes. -/
def WS_BUFFER_SIZE : Nat := HIGH_BACK_PRESSURE + 1024

namespace disconnectionCodes

def GRACEFUL_SHUTDOWN : Nat := 1000

def DUPLICATE_SOCKET : Nat := 1002

def NO_SHARED_STREAMS : Nat := 1000

def MISSING_REQUIRED_PARAMETER : Nat := 1002

def DEAD_CONNECTION : Nat := 1002

end disconnectionCodes

namespace disconnectionReasons

def GRACEFUL_SHUTDOWN : String := "streamr:node:graceful-shutdown"

def DUPLICATE_SOCKET : String := "streamr:endpoint:duplicate-connection"

def NO_SHARED_STREAMS : String := "streamr:node:no-shared-streams"

def MISSING_REQUIRED_PARAMETER : String := "streamr:node:missing-required-parameter"

def DEAD_CONNECTION : String := "streamr:endpoint:dead-connection"

end disconnectionReasons

/-- The options object the `WsEndpoint` constructor passes to `wss.ws` for the
server behaviour (WsEndpoint.js lines 115-119). -/
structure WsServerOptions where
  compression : Nat
  maxPayloadLength : Nat
  maxBackpressure : Nat
  idleTimeout : Nat
deriving DecidableEq, Repr

/-- The concrete options of WsEndpoint.js: compression 0, maxPayloadLength
1 MiB, maxBackpressure `WS_BUFFER_SIZE`, idleTimeout 0. -/
def wsServerOptions : WsServerOptions :=
  { compression := 0
    maxPayloadLength := 1024 * 1024
    maxBackpressure := WS_BUFFER_SIZE
    idleTimeout := 0 }

/-! ### Connection records and endpoint events -/

/-- The per-socket fields the endpoint reads and writes on a live WebSocket:
the identity attached in `_onNewConnection`, the transport's buffered byte
count, and the mutable back-pressure, ping/pong and rtt bookkeeping.
`respondedPong` is `none` while the JS field is still `undefined`; `rtt` is
`none` before the first pong. `readyState` mirrors the ws library field
(OPEN is 1); `terminated` records that `terminateWs` was invoked. -/
structure Connection where
  peerInfo : PeerInfo
  address : String
  bufferedAmount : Nat
  highBackPressure : Bool
  respondedPong : Option Bool
  rtt : Option Int
  rttStart : Option Nat
  readyState : Nat
  terminated : Bool
deriving DecidableEq, Repr

/-- The ws library constant `ws.OPEN`. -/
def WS_OPEN : Nat := 1

/-- The events of the `events` object of WsEndpoint.js that the endpoint emits
on itself (the test-only `connection` and `close` emissions are omitted). -/
inductive WsEvent where
  | peerConnected (peerInfo : PeerInfo)
  | peerDisconnected (peerInfo : PeerInfo) (reason : String)
  | messageReceived (peerInfo : PeerInfo) (message : String)
  | highBackPressure (peerInfo : PeerInfo)
  | lowBackPressure (peerInfo : PeerInfo)
deriving DecidableEq, Repr

/-- `WsEndpoint._evaluateBackPressure(ws)` (WsEndpoint.js lines 270-283): read
the buffered amount, raise the sticky flag and emit `HIGH_BACK_PRESSURE` above
the high watermark, clear it and emit `LOW_BACK_PRESSURE` below the low
watermark, otherwise do nothing. Returns the updated socket and the emitted
events. -/
def evaluateBackPressure (ws : Connection) : Connection × List WsEvent :=
  let bufferedAmount := ws.bufferedAmount
  if !ws.highBackPressure && decide (bufferedAmount > HIGH_BACK_PRESSURE) then
    ({ ws with highBackPressure := true }, [WsEvent.highBackPressure ws.peerInfo])
  else if ws.highBackPressure && decide (bufferedAmount < LOW_BACK_PRESSURE) then
    ({ ws with highBackPressure := false }, [WsEvent.lowBackPressure ws.peerInfo])
  else
    (ws, [])

/-- The `drain` handler of the server options (WsEndpoint.js lines 147-149)
runs exactly `_evaluateBackPressure` on the drained socket. -/
def onDrain (ws : Connection) : Connection × List WsEvent :=
  evaluateBackPressure ws

/-- How many high-back-pressure events a list of emissions holds. -/
def countHighEvents (evs : List WsEvent) : Nat :=
  evs.countP fun e => match e with
    | WsEvent.highBackPressure _ => true
    | _ => false

/-- How many low-back-pressure events a list of emissions holds. -/
def countLowEvents (evs : List WsEvent) : Nat :=
  evs.countP fun e => match e with
    | WsEvent.lowBackPressure _ => true
    | _ => false

/-! ### Endpoint state: connections map, peer book, pending connections -/

/-- `Map.set` on an association list: replace the entry of an existing key in
place, else append, matching JS `Map` insertion-order semantics. -/
def assocSet (l : List (String × α)) (k : String) (v : α) : List (String × α) :=
  if (l.lookup k).isSome then
    l.map fun p => if p.1 == k then (k, v) else p
  else
    l ++ [(k, v)]

/-- `Map.delete` on an association list. -/
def assocErase (l : List (String × α)) (k : String) : List (String × α) :=
  l.filter fun p => !(p.1 == k)

/-- The state a `WsEndpoint` owns: its advertised URL (`getAddress()`), the
`connections` map keyed by peer address, the peer book (modelled from the
spec, since PeerBook.js is not among the given sources: a mapping between
peer address and `PeerInfo`, each direction a function), and the
`pendingConnections` map of in-flight dials keyed by peer address. Pending
promises are identified by the counter value `nextPromiseId` held when the
dial started. -/
structure EndpointState where
  ownAddress : String
  connections : List (String × Connection)
  peerBook : List (String × PeerInfo)
  pendingConnections : List (String × Nat)
  nextPromiseId : Nat
deriving DecidableEq, Repr

/-- `WsEndpoint.isConnected(address)` (WsEndpoint.js lines 410-412). -/
def isConnected (st : EndpointState) (address : String) : Bool :=
  (st.connections.lookup address).isSome

/-- Modelled from the spec: `PeerBook.getPeerId(address)`, failing explicitly
when the address is absent. -/
def getPeerId (st : EndpointState) (address : String) : Option String :=
  (st.peerBook.lookup address).map fun p => p.peerId

/-- Modelled from the spec: `PeerBook.getAddress(peerId)`, the reverse lookup
used by `WsEndpoint.resolveAddress` (WsEndpoint.js lines 439-441). -/
def resolveAddress (st : EndpointState) (peerId : String) : Option String :=
  (st.peerBook.find? fun p => p.2.peerId == peerId).map fun p => p.1

/-- Lexicographic three-way comparison of character lists: -1 below, 0 equal,
1 above. -/
def charListCompare : List Char → List Char → Int
  | [], [] => 0
  | [], _ :: _ => -1
  | _ :: _, [] => 1
  | a :: as, b :: bs =>
    if a < b then -1
    else if b < a then 1
    else charListCompare as bs

/-- `String.prototype.localeCompare` on the plain URL strings the endpoint
compares, modelled as lexicographic code-point order: -1 below, 0 equal,
1 above. -/
def localeCompare (a b : String) : Int :=
  charListCompare a.data b.data

/-- What `WsEndpoint._onNewConnection` did: whether the socket was kept, the
close frame sent on the new socket when it was dropped, the resulting state
and the emitted events. -/
structure NewConnectionResult where
  accepted : Bool
  closedWith : Option (Nat × String)
  state : EndpointState
  events : List WsEvent
deriving DecidableEq, Repr

/-- `WsEndpoint._onNewConnection(ws, address, peerInfo, out)` (WsEndpoint.js
lines 490-513): when a connection to `address` already exists and the own
advertised URL compares greater, close the new socket with
`DUPLICATE_SOCKET` and return false; otherwise attach the identity to the
socket, add it to the peer book and the connections map, emit
`PEER_CONNECTED` and return true. -/
def onNewConnection (st : EndpointState) (ws : Connection) (address : String)
    (peerInfo : PeerInfo) : NewConnectionResult :=
  if isConnected st address && (localeCompare st.ownAddress address == 1) then
    { accepted := false
      closedWith := some (disconnectionCodes.DUPLICATE_SOCKET,
        disconnectionReasons.DUPLICATE_SOCKET)
      state := st
      events := [] }
  else
    let attached := { ws with peerInfo := peerInfo, address := address }
    { accepted := true
      closedWith := none
      state := { st with
        peerBook := assocSet st.peerBook address peerInfo
        connections := assocSet st.connections address attached }
      events := [WsEvent.peerConnected peerInfo] }

/-- `WsEndpoint._onClose(address, peerInfo, code, reason)` (WsEndpoint.js
lines 475-488): a close whose reason is `DUPLICATE_SOCKET` is ignored;
any other close deletes the connection entry and emits `PEER_DISCONNECTED`
with the reason. -/
def onClose (st : EndpointState) (address : String) (peerInfo : PeerInfo)
    (code : Nat) (reason : String) : EndpointState × List WsEvent :=
  if reason == disconnectionReasons.DUPLICATE_SOCKET then
    (st, [])
  else
    ({ st with connections := assocErase st.connections address },
     [WsEvent.peerDisconnected peerInfo reason])

/-! ### Liveness pinging (WsEndpoint.js lines 198-223, 161-169, 526-532) -/

/-- Whether the previous ping went unanswered: `respondedPong` is defined and
false, the condition that makes the try block of `_pingConnections` throw. -/
def isDeadConn (ws : Connection) : Bool :=
  ws.respondedPong == some false

/-- The socket after a ping is sent: `respondedPong` cleared, `rttStart`
recorded at the current clock (a ping frame accompanies this update). -/
def pingedConn (now : Nat) (ws : Connection) : Connection :=
  { ws with respondedPong := some false, rttStart := some now }

/-- What the per-connection body of `_pingConnections` did to one socket. -/
inductive PingOutcome where
  | terminated (code : Nat) (reason : String)
  | pinged (ws : Connection)
deriving DecidableEq, Repr

/-- The per-connection body of `_pingConnections`: a connection whose previous
ping went unanswered throws, is terminated and closed with
`DEAD_CONNECTION`; otherwise `respondedPong` is cleared, `rttStart` recorded
and a ping frame sent. -/
def pingConnection (now : Nat) (ws : Connection) : PingOutcome :=
  if isDeadConn ws then
    PingOutcome.terminated disconnectionCodes.DEAD_CONNECTION
      disconnectionReasons.DEAD_CONNECTION
  else
    PingOutcome.pinged (pingedConn now ws)

/-- The `forEach` of `_pingConnections` over a snapshot of the connection
addresses: a dead connection is terminated and routed through `_onClose`
with code 1002 and the dead-connection reason (the peer info passed there,
`peerBook.getPeerInfo(address)`, equals the `peerInfo` attached to the socket,
since `_onNewConnection` sets both together); a live one is re-pinged in
place. -/
def pingLoop (now : Nat) :
    List (String × Connection) → EndpointState → EndpointState × List WsEvent
  | [], st => (st, [])
  | (addr, ws) :: rest, st =>
    if isDeadConn ws then
      let closed := onClose st addr ws.peerInfo disconnectionCodes.DEAD_CONNECTION
        disconnectionReasons.DEAD_CONNECTION
      let tail := pingLoop now rest closed.1
      (tail.1, closed.2 ++ tail.2)
    else
      pingLoop now rest
        { st with connections := assocSet st.connections addr (pingedConn now ws) }

/-- `WsEndpoint._pingConnections()`: one firing of the liveness timer. -/
def pingConnections (now : Nat) (st : EndpointState) : EndpointState × List WsEvent :=
  pingLoop now st.connections st

/-- The pong handlers (the server options `pong` handler and the client-side
`pong` listener of `_addListeners`): set `respondedPong` and update
`rtt := now - rttStart`. While `rttStart` is still undefined the JS
subtraction yields NaN, modelled as `none`. -/
def onPong (now : Nat) (ws : Connection) : Connection :=
  { ws with
    respondedPong := some true
    rtt := match ws.rttStart with
      | some s => some ((now : Int) - (s : Int))
      | none => none }

/-! ### Sending (WsEndpoint.js lines 225-268) -/

/-- The settlement of the promise `send` returns. `exceptionTerminated`
stands for the catch branch of `_socketSend`, which records the failure and
terminates the socket without settling the promise. -/
inductive SendOutcome where
  | resolved (peerId : String)
  | rejectedNotConnected
  | rejectedSendFailed
  | exceptionTerminated
deriving DecidableEq, Repr

/-- How the underlying transport behaves on one `ws.send` call: succeed,
report an error through the ws-library send callback, or raise
synchronously. -/
inductive TransportBehavior where
  | ok
  | callbackError
  | throws
deriving DecidableEq, Repr

/-- `WsEndpoint._socketSend(ws, message, ...)`: on success the promise
resolves with the recipient peer id, a callback error rejects it
(send failed), and a synchronous exception is caught and terminates the
socket. `_evaluateBackPressure` runs after any non-throwing send call. -/
def socketSend (ws : Connection) (behavior : TransportBehavior)
    (recipientId : String) : SendOutcome × Connection × List WsEvent :=
  match behavior with
  | TransportBehavior.ok =>
    let r := evaluateBackPressure ws
    (SendOutcome.resolved recipientId, r.1, r.2)
  | TransportBehavior.callbackError =>
    let r := evaluateBackPressure ws
    (SendOutcome.rejectedSendFailed, r.1, r.2)
  | TransportBehavior.throws =>
    (SendOutcome.exceptionTerminated, { ws with terminated := true }, [])

/-- `WsEndpoint.send(recipientId, message)`: resolve the recipient's address
through the peer book (`none` models the throw on an unknown peer id), reject
when no live connection to that address exists, otherwise run `_socketSend`
on the stored socket. -/
def send (st : EndpointState) (recipientId : String) (behavior : TransportBehavior) :
    Option (SendOutcome × EndpointState × List WsEvent) :=
  match resolveAddress st recipientId with
  | none => none
  | some recipientAddress =>
    match st.connections.lookup recipientAddress with
    | none => some (SendOutcome.rejectedNotConnected, st, [])
    | some ws =>
      let r := socketSend ws behavior recipientId
      some (r.1,
        { st with connections := assocSet st.connections recipientAddress r.2.1 },
        r.2.2)

/-! ### Connecting (WsEndpoint.js lines 307-385) -/

/-- The observable result of `WsEndpoint.connect(peerAddress)`. -/
inductive ConnectResult where
  | alreadyConnected (peerId : Option String)
  | rejectedOwnAddress
  | pendingReused (promiseId : Nat)
  | dialStarted (promiseId : Nat)
deriving DecidableEq, Repr

/-- Whether a connection to `address` exists and its socket is OPEN. -/
def isConnectedOpen (st : EndpointState) (address : String) : Bool :=
  match st.connections.lookup address with
  | some ws => ws.readyState == WS_OPEN
  | none => false

/-- The tail of `connect` past the already-open fast path: reject a dial to
the own advertised address, return the stored pending promise when a dial to
the address is already in flight, otherwise start a new dial and register its
promise in `pendingConnections` under the peer address. -/
def connectRest (st : EndpointState) (peerAddress : String) :
    ConnectResult × EndpointState :=
  if peerAddress == st.ownAddress then
    (ConnectResult.rejectedOwnAddress, st)
  else
    match st.pendingConnections.lookup peerAddress with
    | some p => (ConnectResult.pendingReused p, st)
    | none =>
      (ConnectResult.dialStarted st.nextPromiseId,
       { st with
          pendingConnections := assocSet st.pendingConnections peerAddress st.nextPromiseId
          nextPromiseId := st.nextPromiseId + 1 })

/-- `WsEndpoint.connect(peerAddress)`: an existing connection in state OPEN
resolves immediately with the peer id from the peer book and opens no new
socket; an existing connection in any other ready state is closed first (the
close frame leaves the maps untouched) and the dial logic proceeds. -/
def connect (st : EndpointState) (peerAddress : String) :
    ConnectResult × EndpointState :=
  match st.connections.lookup peerAddress with
  | some ws =>
    if ws.readyState == WS_OPEN then
      (ConnectResult.alreadyConnected (getPeerId st peerAddress), st)
    else
      connectRest st peerAddress
  | none => connectRest st peerAddress

/-! ### Resend handler (ResendHandler.js) -/

/-- A resend request; its payload is opaque to the handler. -/
structure ResendRequest where
  requestId : Nat
deriving DecidableEq, Repr

/-- How a strategy's response stream finishes: it ends (or closes) after its
items, or it emits an error. -/
inductive StreamTermination where
  | ended
  | errored
deriving DecidableEq, Repr

/-- A fully pulled response stream of one strategy: the data items it emits
before finishing, and how it finishes. Messages are opaque, naturals stand
for them. -/
structure ResponseStream where
  items : List Nat
  termination : StreamTermination
deriving DecidableEq, Repr

/-- A resend strategy as the handler sees it:
`getResendResponseStream(request, source)`. -/
def ResendStrategy : Type := ResendRequest → String → ResponseStream

/-- `_readStreamUntilEndOrError(responseStream, request)` with the inactivity
timer modelled separately below: the promise resolves true exactly when the
stream ends after at least one data item, and false on an error; an error is
also routed to `notifyError(request, error)`. The pair holds the resolved
value and the number of notifyError calls. -/
def readStreamUntilEndOrError (s : ResponseStream) : Bool × Nat :=
  match s.termination with
  | StreamTermination.ended => (decide (0 < s.items.length), 0)
  | StreamTermination.errored => (false, 1)

/-- A strategy pull is satisfactory when `_readStreamUntilEndOrError`
resolves true. -/
def satisfactory (s : ResponseStream) : Bool :=
  (readStreamUntilEndOrError s).1

/-- What `_loopThruResendStrategies` produced: the items pushed to the
outbound request stream before the closing null, the number of notifyError
calls, and how many strategies were pulled. -/
structure LoopResult where
  pushed : List Nat
  notified : Nat
  tried : Nat
deriving DecidableEq, Repr

/-- The strategy loop of `_loopThruResendStrategies` for a context that is
not cancelled from outside: every data item of the current strategy's
response stream is piped to the outbound stream; when
`_readStreamUntilEndOrError` resolves true the context stops and the loop
exits; otherwise the next strategy is pulled; afterwards the outbound stream
is closed. -/
def loopThruResendStrategies (request : ResendRequest) (source : String) :
    List ResendStrategy → LoopResult
  | [] => { pushed := [], notified := 0, tried := 0 }
  | strat :: rest =>
    let s := strat request source
    let r := readStreamUntilEndOrError s
    if r.1 then
      { pushed := s.items, notified := r.2, tried := 1 }
    else
      let tail := loopThruResendStrategies request source rest
      { pushed := s.items ++ tail.pushed
        notified := r.2 + tail.notified
        tried := 1 + tail.tried }

/-- A handle to a downstream response stream; `destroyed` records that
`destroy()` was called on it. -/
structure ResponseStreamHandle where
  streamId : Nat
  destroyed : Bool
deriving DecidableEq, Repr

/-- An in-flight resend context as built at the top of
`_loopThruResendStrategies`: the originating request, the start time, the
stop flag and the current downstream response stream. -/
structure ResendCtx where
  request : ResendRequest
  startTime : Nat
  stop : Bool
  responseStream : Option ResponseStreamHandle
deriving DecidableEq, Repr

/-- `ctx.cancel()`: set the stop flag and destroy the current downstream
response stream when there is one. -/
def ctxCancel (ctx : ResendCtx) : ResendCtx :=
  { ctx with
    stop := true
    responseStream := ctx.responseStream.map fun s => { s with destroyed := true } }

/-- The `ResendBookkeeper`: outstanding contexts grouped by source node id. -/
structure ResendBookkeeper where
  resends : List (String × List ResendCtx)
deriving DecidableEq, Repr

/-- `ResendBookkeeper.getContexts(node)`. -/
def getContexts (b : ResendBookkeeper) (node : String) : List ResendCtx :=
  (b.resends.lookup node).getD []

/-- `ResendBookkeeper.popContexts(node)`: read the node's contexts and delete
its entry. -/
def popContexts (b : ResendBookkeeper) (node : String) :
    List ResendCtx × ResendBookkeeper :=
  (getContexts b node, { resends := assocErase b.resends node })

/-- `ResendHandler.cancelResendsOfNode(node)`: pop every outstanding context
of the node, cancel each, and return their original requests. The result
lists the returned requests, the bookkeeper afterwards, and the cancelled
contexts. -/
def cancelResendsOfNode (b : ResendBookkeeper) (node : String) :
    List ResendRequest × ResendBookkeeper × List ResendCtx :=
  let popped := popContexts b node
  (popped.1.map fun ctx => ctx.request, popped.2, popped.1.map ctxCancel)

/-! ### The inactivity timer of _readStreamUntilEndOrError in real time -/

/-- The constructor default for `maxInactivityPeriodInMs`: 5 minutes. -/
def maxInactivityPeriodInMsDefault : Nat := 5 * 60 * 1000

/-- A strategy response stream with its real-time behaviour: the instants at
which it emits data items, and the instant at which it ends, `none` when it
never ends on its own. -/
structure TimedStream where
  dataTimes : List Nat
  endTime : Option Nat
deriving DecidableEq, Repr

/-- The `setInterval` callback of `_readStreamUntilEndOrError` fires at the
instants k * P; the one at k * P emits the timeout error exactly when no data
item arrived since the previous firing, that is in the window from
(k - 1) * P exclusive to k * P inclusive. -/
def quietWindow (P : Nat) (s : TimedStream) (k : Nat) : Bool :=
  s.dataTimes.all fun t => !(decide ((k - 1) * P < t) && decide (t ≤ k * P))

/-- Whether the interval callback at `time` still runs: the `end` handler
clears the interval, so only checks strictly before the end instant fire. -/
def beforeEnd (s : TimedStream) (time : Nat) : Bool :=
  match s.endTime with
  | some T => decide (time < T)
  | none => true

/-- An upper bound on the index of the first firing quiet check: past the end
instant no check fires, and with no end every check after the last data item
is quiet. -/
def searchBound (P : Nat) (s : TimedStream) : Nat :=
  match s.endTime with
  | some T => T / P + 1
  | none => (s.dataTimes.foldr max 0) / P + 2

/-- The first quiet check at or after index `k`, searched with the given
fuel. -/
def findQuietCheck (P : Nat) (s : TimedStream) : Nat → Nat → Option Nat
  | 0, _ => none
  | fuel + 1, k =>
    if quietWindow P s k && beforeEnd s (k * P) then some k
    else findQuietCheck P s fuel (k + 1)

/-- How `_readStreamUntilEndOrError` resolves for a stream with the given
real-time behaviour under inactivity period `P`. -/
inductive TimedReadOutcome where
  | timedOut (time : Nat)
  | resolvedAtEnd (satisfied : Bool)
  | neverResolves
deriving DecidableEq, Repr

/-- The resolution of `_readStreamUntilEndOrError` in real time: the first
quiet check emits the timeout error (`notifyError` fires and the promise
resolves false); absent one, the promise resolves at the end instant with the
satisfied flag; a stream that never ends and is never caught quiet never
resolves. -/
def readTimed (P : Nat) (s : TimedStream) : TimedReadOutcome :=
  match findQuietCheck P s (searchBound P s) 1 with
  | some k => TimedReadOutcome.timedOut (k * P)
  | none =>
    match s.endTime with
    | some _ => TimedReadOutcome.resolvedAtEnd (decide (0 < s.dataTimes.length))
    | none => TimedReadOutcome.neverResolves

/-- Whether a stream emits no data item in the window from `a` exclusive to
`b` inclusive. -/
def noDataIn (s : TimedStream) (a b : Nat) : Bool :=
  s.dataTimes.all fun t => !(decide (a < t) && decide (t ≤ b))

/-! ### Concrete instances used by witnesses and counterexamples -/

/-- A minimal live connection record used by the concrete examples below. -/
def sampleConn (addr : String) (p : PeerInfo) : Connection :=
  { peerInfo := p
    address := addr
    bufferedAmount := 0
    highBackPressure := false
    respondedPong := none
    rtt := none
    rttStart := none
    readyState := WS_OPEN
    terminated := false }

def peerA : PeerInfo := PeerInfo.newNode "a"

def peerB : PeerInfo := PeerInfo.newNode "b"

/-- Endpoint A, advertised URL ws://127.0.0.1:30001, already holding the
socket B opened to it. -/
def endpointA : EndpointState :=
  { ownAddress := "ws://127.0.0.1:30001"
    connections := [("ws://127.0.0.1:30002", sampleConn "ws://127.0.0.1:30002" peerB)]
    peerBook := [("ws://127.0.0.1:30002", peerB)]
    pendingConnections := []
    nextPromiseId := 0 }

/-- Endpoint B, advertised URL ws://127.0.0.1:30002, already holding the
socket A opened to it. -/
def endpointB : EndpointState :=
  { ownAddress := "ws://127.0.0.1:30002"
    connections := [("ws://127.0.0.1:30001", sampleConn "ws://127.0.0.1:30001" peerA)]
    peerBook := [("ws://127.0.0.1:30001", peerA)]
    pendingConnections := []
    nextPromiseId := 0 }

def wsNewA : Connection := sampleConn endpointB.ownAddress peerB

def wsNewB : Connection := sampleConn endpointA.ownAddress peerA

/-- A strategy that yields one message and then errors. -/
def cexStrategyOne : ResendStrategy :=
  fun _ _ => { items := [5], termination := StreamTermination.errored }

/-- A strategy that yields one message and ends. -/
def cexStrategyTwo : ResendStrategy :=
  fun _ _ => { items := [7], termination := StreamTermination.ended }

def cexRequest : ResendRequest := { requestId := 0 }

/-- The stream refuting the bound claimed in C8: data items at instants 1 and
599999, end at 600000. -/
def cexSilentStream : TimedStream :=
  { dataTimes := [1, 599999], endTime := some 600000 }


/-! ### Claim theorems: C9, C5, C2 -/

/-- Claim C9: the peer type is drawn from the closed set node, storage,
tracker, unknown, and construction with any other type string fails; `isNode`
holds exactly for node and storage, `isStorage` exactly for storage,
`isTracker` exactly for tracker. -/
theorem C9_peer_info_closed_type_set :
    (∀ peerId t, (PeerInfo.new peerId t).isSome = true ↔
      (t = "node" ∨ t = "storage" ∨ t = "tracker" ∨ t = "unknown"))
    ∧ (∀ p : PeerInfo,
        (p.isNode = true ↔ (p.peerType = PeerType.node ∨ p.peerType = PeerType.storage))
        ∧ (p.isStorage = true ↔ p.peerType = PeerType.storage)
        ∧ (p.isTracker = true ↔ p.peerType = PeerType.tracker)) := by
  constructor
  · intro peerId t
    unfold PeerInfo.new peerTypeFromString
    split_ifs with h1 h2 h3 h4 <;> simp_all
  · intro p
    cases p with
    | mk peerId peerType =>
      cases peerType <;>
        simp [PeerInfo.isNode, PeerInfo.isStorage, PeerInfo.isTracker]

/-- Claim C5 names the intended configuration; the code diverges on the
back-pressure bound. The server options set max payload 1 MiB and disable the
idle timeout as claimed, but `maxBackpressure` is `HIGH_BACK_PRESSURE + 1024`
(2098176 bytes, HIGH plus 1 KiB), not HIGH plus 1 MiB (3145728 bytes), even
though the source comment beside `WS_BUFFER_SIZE` reads "add 1 MB safety
margin". -/
theorem C5_ws_buffer_size_is_high_plus_1KiB :
    wsServerOptions.maxPayloadLength = 1024 * 1024
    ∧ wsServerOptions.idleTimeout = 0
    ∧ wsServerOptions.maxBackpressure = 2098176
    ∧ wsServerOptions.maxBackpressure ≠ HIGH_BACK_PRESSURE + 1024 * 1024 := by
  refine ⟨rfl, rfl, rfl, ?_⟩
  decide

/-- Claim C2: on every back-pressure evaluation (send or drain), a false flag
with buffered bytes above 2 MiB flips the flag to true and emits exactly one
high-back-pressure event; a true flag with buffered bytes below 1 MiB clears
the flag and emits exactly one low-back-pressure event; in every other case
the flag and the socket are unchanged and nothing is emitted, so the flag is
sticky between the watermarks. -/
theorem C2_back_pressure_watermarks :
    ∀ ws : Connection,
      (ws.highBackPressure = false → HIGH_BACK_PRESSURE < ws.bufferedAmount →
        (evaluateBackPressure ws).1 = { ws with highBackPressure := true }
        ∧ (evaluateBackPressure ws).2 = [WsEvent.highBackPressure ws.peerInfo]
        ∧ countHighEvents (evaluateBackPressure ws).2 = 1
        ∧ countLowEvents (evaluateBackPressure ws).2 = 0)
      ∧ (ws.highBackPressure = true → ws.bufferedAmount < LOW_BACK_PRESSURE →
        (evaluateBackPressure ws).1 = { ws with highBackPressure := false }
        ∧ (evaluateBackPressure ws).2 = [WsEvent.lowBackPressure ws.peerInfo]
        ∧ countHighEvents (evaluateBackPressure ws).2 = 0
        ∧ countLowEvents (evaluateBackPressure ws).2 = 1)
      ∧ (¬ (ws.highBackPressure = false ∧ HIGH_BACK_PRESSURE < ws.bufferedAmount) →
         ¬ (ws.highBackPressure = true ∧ ws.bufferedAmount < LOW_BACK_PRESSURE) →
        evaluateBackPressure ws = (ws, []))
      ∧ onDrain ws = evaluateBackPressure ws := by
  intro ws
  refine ⟨?_, ?_, ?_, rfl⟩
  · intro hflag hbuf
    simp [evaluateBackPressure, hflag, hbuf, countHighEvents, countLowEvents]
  · intro hflag hbuf
    simp [evaluateBackPressure, hflag, hbuf, countHighEvents, countLowEvents]
  · intro hnothigh hnotlow
    unfold evaluateBackPressure
    cases hflag : ws.highBackPressure with
    | false =>
      have hbuf : ¬ HIGH_BACK_PRESSURE < ws.bufferedAmount := fun hc => hnothigh ⟨hflag, hc⟩
      simp [hflag, hbuf]
    | true =>
      have hbuf : ¬ ws.bufferedAmount < LOW_BACK_PRESSURE := fun hc => hnotlow ⟨hflag, hc⟩
      simp [hflag, hbuf]

theorem charListCompare_antisymm :
    ∀ as bs : List Char, charListCompare bs as = -(charListCompare as bs)
  | [], [] => by simp [charListCompare]
  | [], _ :: _ => by simp [charListCompare]
  | _ :: _, [] => by simp [charListCompare]
  | a :: as, b :: bs => by
    rcases lt_trichotomy a b with h | h | h
    · simp [charListCompare, h, lt_asymm h]
    · subst h
      simp [charListCompare, lt_irrefl, charListCompare_antisymm as bs]
    · simp [charListCompare, h, lt_asymm h]

theorem charListCompare_eq_zero_iff :
    ∀ as bs : List Char, charListCompare as bs = 0 ↔ as = bs
  | [], [] => by simp [charListCompare]
  | [], _ :: _ => by simp [charListCompare]
  | _ :: _, [] => by simp [charListCompare]
  | a :: as, b :: bs => by
    rcases lt_trichotomy a b with h | h | h
    · simp [charListCompare, h, ne_of_lt h]
    · subst h
      simp [charListCompare, lt_irrefl, charListCompare_eq_zero_iff as bs]
    · simp [charListCompare, h, lt_asymm h, ne_of_gt h]

theorem charListCompare_mem :
    ∀ as bs : List Char, charListCompare as bs = -1 ∨ charListCompare as bs = 0
      ∨ charListCompare as bs = 1
  | [], [] => Or.inr (Or.inl rfl)
  | [], _ :: _ => Or.inl rfl
  | _ :: _, [] => Or.inr (Or.inr rfl)
  | a :: as, b :: bs => by
    unfold charListCompare
    split_ifs with h1 h2
    · exact Or.inl rfl
    · exact Or.inr (Or.inr rfl)
    · exact charListCompare_mem as bs

/-- Distinct strings compare to 1 in exactly one of the two orders. -/
theorem localeCompare_exactly_one (a b : String) (hne : a ≠ b) :
    (localeCompare a b = 1 ∨ localeCompare b a = 1)
      ∧ ¬ (localeCompare a b = 1 ∧ localeCompare b a = 1) := by
  have hdata : ¬ a.data = b.data := fun h => hne (String.ext h)
  have hanti := charListCompare_antisymm a.data b.data
  constructor
  · rcases charListCompare_mem a.data b.data with h | h | h
    · refine Or.inr ?_
      unfold localeCompare
      rw [hanti, h]
      decide
    · exact absurd ((charListCompare_eq_zero_iff a.data b.data).mp h) hdata
    · exact Or.inl h
  · rintro ⟨h1, h2⟩
    unfold localeCompare at h1 h2
    rw [hanti, h1] at h2
    exact absurd h2 (by decide)

/-- Claim C1: with both peers simultaneously holding a connection to each
other's address, exactly one side wins the tiebreak; the endpoint whose own
advertised URL compares greater than the peer address closes the newly opened
socket with code 1002, reason `streamr:endpoint:duplicate-connection`, leaving
its connection map unchanged, while the other endpoint keeps the new socket;
and a received close with that reason is silently ignored: no
`PEER_DISCONNECTED` is emitted and the connection entry stays. -/
theorem C1_duplicate_socket_tiebreak
    (stA stB : EndpointState) (wsNewAtA wsNewAtB : Connection) (pA pB : PeerInfo)
    (hne : stA.ownAddress ≠ stB.ownAddress)
    (hconnA : isConnected stA stB.ownAddress = true)
    (hconnB : isConnected stB stA.ownAddress = true) :
    ((localeCompare stA.ownAddress stB.ownAddress = 1
        ∨ localeCompare stB.ownAddress stA.ownAddress = 1)
      ∧ ¬ (localeCompare stA.ownAddress stB.ownAddress = 1
        ∧ localeCompare stB.ownAddress stA.ownAddress = 1))
    ∧ (localeCompare stA.ownAddress stB.ownAddress = 1 →
        onNewConnection stA wsNewAtA stB.ownAddress pB =
          { accepted := false
            closedWith := some (1002, "streamr:endpoint:duplicate-connection")
            state := stA
            events := [] }
        ∧ (onNewConnection stB wsNewAtB stA.ownAddress pA).accepted = true)
    ∧ (localeCompare stB.ownAddress stA.ownAddress = 1 →
        onNewConnection stB wsNewAtB stA.ownAddress pA =
          { accepted := false
            closedWith := some (1002, "streamr:endpoint:duplicate-connection")
            state := stB
            events := [] }
        ∧ (onNewConnection stA wsNewAtA stB.ownAddress pB).accepted = true)
    ∧ (∀ (st : EndpointState) (addr : String) (p : PeerInfo) (code : Nat),
        onClose st addr p code "streamr:endpoint:duplicate-connection" = (st, [])) := by
  have hex := localeCompare_exactly_one stA.ownAddress stB.ownAddress hne
  refine ⟨hex, ?_, ?_, ?_⟩
  · intro h1
    have h2 : ¬ localeCompare stB.ownAddress stA.ownAddress = 1 := fun hc =>
      hex.2 ⟨h1, hc⟩
    constructor
    · simp [onNewConnection, hconnA, h1, disconnectionCodes.DUPLICATE_SOCKET,
        disconnectionReasons.DUPLICATE_SOCKET]
    · simp [onNewConnection, hconnB, h2]
  · intro h1
    have h2 : ¬ localeCompare stA.ownAddress stB.ownAddress = 1 := fun hc =>
      hex.2 ⟨hc, h1⟩
    constructor
    · simp [onNewConnection, hconnB, h1, disconnectionCodes.DUPLICATE_SOCKET,
        disconnectionReasons.DUPLICATE_SOCKET]
    · simp [onNewConnection, hconnA, h2]
  · intro st addr p code
    simp [onClose, disconnectionReasons.DUPLICATE_SOCKET]

/-- Witness for claim C1 at concrete endpoints: B's advertised URL compares
greater, so B drops the new socket with 1002 and the duplicate reason while
A keeps its new socket, and A ignores the resulting duplicate-reason close. -/
theorem C1_duplicate_socket_tiebreak_witness :
    onNewConnection endpointB wsNewB endpointA.ownAddress peerA =
      { accepted := false
        closedWith := some (1002, "streamr:endpoint:duplicate-connection")
        state := endpointB
        events := [] }
    ∧ (onNewConnection endpointA wsNewA endpointB.ownAddress peerB).accepted = true
    ∧ onClose endpointA endpointB.ownAddress peerB 1002
        "streamr:endpoint:duplicate-connection" = (endpointA, []) := by
  have h := C1_duplicate_socket_tiebreak endpointA endpointB wsNewA wsNewB peerA peerB
    (by decide) (by decide) (by decide)
  exact ⟨(h.2.2.1 (by decide)).1, (h.2.2.1 (by decide)).2,
    h.2.2.2 endpointA endpointB.ownAddress peerB 1002⟩

theorem assocSet_cons_ne {α : Type} (a k : String) (x v : α) (l : List (String × α))
    (h : a ≠ k) : assocSet ((a, x) :: l) k v = (a, x) :: assocSet l k v := by
  have hka : (k == a) = false := beq_eq_false_iff_ne.mpr (Ne.symm h)
  have hak : (a == k) = false := beq_eq_false_iff_ne.mpr h
  unfold assocSet
  rw [List.lookup_cons]
  simp only [hka, hak]
  split <;> simp_all

theorem assocSet_cons_self {α : Type} (a : String) (x v : α) (l : List (String × α))
    (h : a ∉ l.map Prod.fst) : assocSet ((a, x) :: l) a v = (a, v) :: l := by
  have hmap : ∀ p ∈ l,
      (if p.1 == a then ((a, v) : String × α) else p) = id p := by
    intro p hp
    have hne : (p.1 == a) = false := by
      refine beq_eq_false_iff_ne.mpr fun hc => h ?_
      exact hc ▸ List.mem_map_of_mem Prod.fst hp
    simp [hne]
  unfold assocSet
  rw [List.lookup_cons]
  simp only [beq_self_eq_true, Option.isSome_some, if_true, List.map_cons,
    List.map_congr_left hmap, List.map_id]

theorem assocErase_cons_ne {α : Type} (a k : String) (x : α) (l : List (String × α))
    (h : a ≠ k) : assocErase ((a, x) :: l) k = (a, x) :: assocErase l k := by
  have hak : (a == k) = false := beq_eq_false_iff_ne.mpr h
  simp [assocErase, hak]

theorem assocErase_cons_self {α : Type} (a : String) (x : α) (l : List (String × α))
    (h : a ∉ l.map Prod.fst) : assocErase ((a, x) :: l) a = l := by
  unfold assocErase
  rw [List.filter_cons, if_neg (by simp)]
  rw [List.filter_eq_self]
  intro p hp
  have hne : (p.1 == a) = false := by
    refine beq_eq_false_iff_ne.mpr fun hc => h ?_
    exact hc ▸ List.mem_map_of_mem Prod.fst hp
  simp [hne]

theorem pingLoop_skip (now : Nat) (a : String) (y : Connection) :
    ∀ (l : List (String × Connection)) (st : EndpointState),
      a ∉ l.map Prod.fst →
      pingLoop now l { st with connections := (a, y) :: st.connections } =
        ({ (pingLoop now l st).1 with
            connections := (a, y) :: (pingLoop now l st).1.connections },
         (pingLoop now l st).2)
  | [], st, _ => rfl
  | (addr, ws) :: rest, st, h => by
    have hne : a ≠ addr := by
      intro hc
      exact (hc ▸ h) (List.mem_cons_self addr (rest.map Prod.fst))
    have hrest : a ∉ rest.map Prod.fst := fun hc => h (List.mem_cons_of_mem addr hc)
    have hreason : (disconnectionReasons.DEAD_CONNECTION ==
        disconnectionReasons.DUPLICATE_SOCKET) = false := by decide
    cases hdead : isDeadConn ws with
    | true =>
      have ih := pingLoop_skip now a y rest
        { st with connections := assocErase st.connections addr } hrest
      simp only [pingLoop, hdead, if_true, onClose, hreason, Bool.false_eq_true,
        if_false, assocErase_cons_ne a addr y _ hne]
      simp only [ih]
    | false =>
      have ih := pingLoop_skip now a y rest
        { st with connections := assocSet st.connections addr (pingedConn now ws) } hrest
      simp only [pingLoop, hdead, Bool.false_eq_true, if_false,
        assocSet_cons_ne a addr y _ _ hne]
      simp only [ih]

/-- What one timer firing does to the whole connections map: dead connections
are removed and surfaced as `PEER_DISCONNECTED` with the dead-connection
reason, live ones are re-pinged in place. -/
theorem pingConnections_characterization (now : Nat) :
    ∀ (l : List (String × Connection)) (st : EndpointState),
      (l.map Prod.fst).Nodup → st.connections = l →
      pingLoop now l st =
        ({ st with connections := l.filterMap fun e =>
            if isDeadConn e.2 then none else some (e.1, pingedConn now e.2) },
         (l.filter fun e => isDeadConn e.2).map fun e =>
           WsEvent.peerDisconnected e.2.peerInfo disconnectionReasons.DEAD_CONNECTION)
  | [], st, _, hconn => by
    cases st
    simp_all [pingLoop]
  | (addr, ws) :: rest, st, hnodup, hconn => by
    have hmem : addr ∉ rest.map Prod.fst := by
      simp only [List.map_cons, List.nodup_cons] at hnodup
      exact hnodup.1
    have hrest : (rest.map Prod.fst).Nodup := by
      simp only [List.map_cons, List.nodup_cons] at hnodup
      exact hnodup.2
    have hreason : (disconnectionReasons.DEAD_CONNECTION ==
        disconnectionReasons.DUPLICATE_SOCKET) = false := by decide
    have ih := pingConnections_characterization now rest
      { st with connections := rest } hrest rfl
    cases hdead : isDeadConn ws with
    | true =>
      simp only [pingLoop, hdead, if_true, onClose, hreason, Bool.false_eq_true, if_false]
      rw [hconn, assocErase_cons_self addr ws rest hmem]
      simp only [ih]
      simp [hdead]
    | false =>
      simp only [pingLoop, hdead, Bool.false_eq_true, if_false]
      rw [hconn, assocSet_cons_self addr ws (pingedConn now ws) rest hmem]
      have hskip := pingLoop_skip now addr (pingedConn now ws) rest
        { st with connections := rest } hmem
      simp only [show ({ st with connections := rest } : EndpointState).connections = rest
        from rfl] at hskip
      simp only [hskip, ih]
      simp [hdead]

/-- Claim C3: on a firing of the liveness timer a connection whose previous
ping was unanswered (pong flag defined and false) is terminated and surfaced
as a disconnect with code 1002 and reason `streamr:endpoint:dead-connection`,
while every other connection gets its pong flag cleared, `rttStart` recorded
and a ping frame sent; and on a pong the flag is set and `rtt` becomes now
minus `rttStart`. -/
theorem C3_liveness_ping_and_pong :
    (∀ (now : Nat) (ws : Connection),
      (ws.respondedPong = some false →
        pingConnection now ws =
          PingOutcome.terminated 1002 "streamr:endpoint:dead-connection")
      ∧ (ws.respondedPong ≠ some false →
        pingConnection now ws =
          PingOutcome.pinged { ws with respondedPong := some false, rttStart := some now }))
    ∧ (∀ (now : Nat) (st : EndpointState),
        (st.connections.map Prod.fst).Nodup →
        pingConnections now st =
          ({ st with connections := st.connections.filterMap fun e =>
              if isDeadConn e.2 then none else some (e.1, pingedConn now e.2) },
           (st.connections.filter fun e => isDeadConn e.2).map fun e =>
             WsEvent.peerDisconnected e.2.peerInfo "streamr:endpoint:dead-connection"))
    ∧ (∀ (now : Nat) (ws : Connection),
        (onPong now ws).respondedPong = some true
        ∧ ∀ s, ws.rttStart = some s →
            (onPong now ws).rtt = some ((now : Int) - (s : Int))) := by
  refine ⟨?_, ?_, ?_⟩
  · intro now ws
    constructor
    · intro h
      simp [pingConnection, isDeadConn, h, disconnectionCodes.DEAD_CONNECTION,
        disconnectionReasons.DEAD_CONNECTION]
    · intro h
      have hdead : isDeadConn ws = false := by
        simp [isDeadConn]
        exact h
      simp [pingConnection, hdead, pingedConn]
  · intro now st hnodup
    exact pingConnections_characterization now st.connections st hnodup rfl
  · intro now ws
    refine ⟨rfl, ?_⟩
    intro s hs
    simp [onPong, hs]

theorem lookup_assocSet_self {α : Type} :
    ∀ (l : List (String × α)) (k : String) (v : α),
      (assocSet l k v).lookup k = some v
  | [], k, v => by simp [assocSet, List.lookup]
  | (a, x) :: l, k, v => by
    by_cases hak : a = k
    · subst hak
      simp [assocSet, List.lookup_cons]
    · rw [assocSet_cons_ne a k x v l hak, List.lookup_cons]
      have hka : (k == a) = false := beq_eq_false_iff_ne.mpr (Ne.symm hak)
      simp only [hka]
      exact lookup_assocSet_self l k v

/-- Claim C4: `send(peerId, frame)` resolves the peer's address via the peer
book; with no live connection to that address the promise rejects; on
successful transmission it resolves with the recipient peer id; a transport
callback error rejects it as a failed send; and a send that raises
synchronously terminates the underlying socket. -/
theorem C4_send_error_paths
    (st : EndpointState) (recipientId : String) (behavior : TransportBehavior)
    (addr : String) (hresolve : resolveAddress st recipientId = some addr) :
    (st.connections.lookup addr = none →
      send st recipientId behavior = some (SendOutcome.rejectedNotConnected, st, []))
    ∧ (∀ ws, st.connections.lookup addr = some ws →
      (behavior = TransportBehavior.ok →
        (send st recipientId behavior).map (fun r => r.1)
          = some (SendOutcome.resolved recipientId))
      ∧ (behavior = TransportBehavior.callbackError →
        (send st recipientId behavior).map (fun r => r.1)
          = some SendOutcome.rejectedSendFailed)
      ∧ (behavior = TransportBehavior.throws →
        send st recipientId behavior = some (SendOutcome.exceptionTerminated,
          { st with connections :=
              assocSet st.connections addr { ws with terminated := true } },
          []))) := by
  constructor
  · intro hnone
    simp [send, hresolve, hnone]
  · intro ws hws
    refine ⟨?_, ?_, ?_⟩ <;> intro hb <;> subst hb <;>
      simp [send, hresolve, hws, socketSend]

/-- Witness for claim C4 at a concrete endpoint: sending to the known,
connected peer b succeeds and resolves with b. -/
theorem C4_send_error_paths_witness :
    (send endpointA "b" TransportBehavior.ok).map (fun r => r.1)
      = some (SendOutcome.resolved "b") := by
  have h := C4_send_error_paths endpointA "b" TransportBehavior.ok
    "ws://127.0.0.1:30002" (by decide)
  exact (h.2 (sampleConn "ws://127.0.0.1:30002" peerB) (by decide)).1 rfl

/-- Claim C10: `connect(peerAddress)` is idempotent at the public interface.
An existing open connection makes it resolve with the already-known peer id,
leaving the state (in particular the pending-dial map) unchanged; while a
dial to the address is pending, a further `connect` returns the stored
pending promise unchanged; and right after a dial starts, the address is
registered as pending, so a repeated `connect` reuses that same promise and
at most one outbound dial per address is in flight. -/
theorem C10_connect_idempotent :
    ∀ (st : EndpointState) (peerAddress : String),
      (∀ ws, st.connections.lookup peerAddress = some ws →
        ws.readyState = WS_OPEN →
        connect st peerAddress
          = (ConnectResult.alreadyConnected (getPeerId st peerAddress), st))
      ∧ (∀ p, isConnectedOpen st peerAddress = false →
          peerAddress ≠ st.ownAddress →
          st.pendingConnections.lookup peerAddress = some p →
          connect st peerAddress = (ConnectResult.pendingReused p, st))
      ∧ (isConnectedOpen st peerAddress = false →
          peerAddress ≠ st.ownAddress →
          st.pendingConnections.lookup peerAddress = none →
          (connect st peerAddress).1 = ConnectResult.dialStarted st.nextPromiseId
          ∧ (connect st peerAddress).2.pendingConnections.lookup peerAddress
              = some st.nextPromiseId
          ∧ connect (connect st peerAddress).2 peerAddress
              = (ConnectResult.pendingReused st.nextPromiseId,
                 (connect st peerAddress).2)) := by
  intro st peerAddress
  refine ⟨?_, ?_, ?_⟩
  · intro ws hws hopen
    simp [connect, hws, hopen]
  · intro p hnotopen hnotown hpending
    have hown : (peerAddress == st.ownAddress) = false :=
      beq_eq_false_iff_ne.mpr hnotown
    unfold connect
    cases hws : st.connections.lookup peerAddress with
    | none => simp [connectRest, hown, hpending]
    | some ws =>
      have hready : (ws.readyState == WS_OPEN) = false := by
        unfold isConnectedOpen at hnotopen
        rw [hws] at hnotopen
        exact hnotopen
      simp [hready, connectRest, hown, hpending]
  · intro hnotopen hnotown hpending
    have hown : (peerAddress == st.ownAddress) = false :=
      beq_eq_false_iff_ne.mpr hnotown
    have hdial : connect st peerAddress =
        (ConnectResult.dialStarted st.nextPromiseId,
         { st with
            pendingConnections :=
              assocSet st.pendingConnections peerAddress st.nextPromiseId
            nextPromiseId := st.nextPromiseId + 1 }) := by
      unfold connect
      cases hws : st.connections.lookup peerAddress with
      | none => simp [connectRest, hown, hpending]
      | some ws =>
        have hready : (ws.readyState == WS_OPEN) = false := by
          unfold isConnectedOpen at hnotopen
          rw [hws] at hnotopen
          exact hnotopen
        simp [hready, connectRest, hown, hpending]
    rw [hdial]
    refine ⟨rfl, lookup_assocSet_self st.pendingConnections peerAddress st.nextPromiseId, ?_⟩
    unfold connect
    cases hws : st.connections.lookup peerAddress with
    | none => simp [connectRest, hown, lookup_assocSet_self]
    | some ws =>
      have hready : (ws.readyState == WS_OPEN) = false := by
        unfold isConnectedOpen at hnotopen
        rw [hws] at hnotopen
        exact hnotopen
      simp [hready, connectRest, hown, lookup_assocSet_self]

theorem readStream_ended (s : ResponseStream)
    (h : s.termination = StreamTermination.ended) :
    readStreamUntilEndOrError s = (decide (0 < s.items.length), 0) := by
  unfold readStreamUntilEndOrError
  rw [h]

theorem readStream_errored (s : ResponseStream)
    (h : s.termination = StreamTermination.errored) :
    readStreamUntilEndOrError s = (false, 1) := by
  unfold readStreamUntilEndOrError
  rw [h]

theorem satisfactory_iff (s : ResponseStream) :
    satisfactory s = true ↔
      (s.termination = StreamTermination.ended ∧ s.items ≠ []) := by
  unfold satisfactory
  cases hterm : s.termination with
  | ended =>
    rw [readStream_ended s hterm]
    simp [List.length_pos, hterm]
  | errored =>
    rw [readStream_errored s hterm]
    simp [hterm]

theorem loopThru_cons (request : ResendRequest) (source : String)
    (strat : ResendStrategy) (rest : List ResendStrategy) :
    loopThruResendStrategies request source (strat :: rest) =
      if satisfactory (strat request source) then
        { pushed := (strat request source).items
          notified := (readStreamUntilEndOrError (strat request source)).2
          tried := 1 }
      else
        { pushed := (strat request source).items
            ++ (loopThruResendStrategies request source rest).pushed
          notified := (readStreamUntilEndOrError (strat request source)).2
            + (loopThruResendStrategies request source rest).notified
          tried := 1 + (loopThruResendStrategies request source rest).tried } := rfl

/-- Counterexample to claim C6 as stated: the first strategy produces one
message, yet it is not satisfactory and does not stop the loop, because its
stream errors after the message; the second strategy is pulled as well
(tried = 2) and both items reach the outbound sequence. -/
theorem C6_message_then_error_counterexample :
    0 < ((cexStrategyOne cexRequest "src").items).length
    ∧ loopThruResendStrategies cexRequest "src" [cexStrategyOne, cexStrategyTwo]
        = { pushed := [5, 7], notified := 1, tried := 2 }
    ∧ satisfactory (cexStrategyOne cexRequest "src") = false := by
  refine ⟨by decide, by decide, by decide⟩

/-- Claim C6 amended: strategies are tried in list order; a strategy whose
response stream ends after producing at least one message is satisfactory and
stops the loop, after which the outbound sequence is closed; a strategy that
errors (even when it produced messages first) or that yields zero messages
causes the next strategy to be tried, its items staying in the outbound
sequence. In particular, with a first strategy yielding an empty ended
sequence and a second yielding two messages, the outbound sequence emits
exactly those two messages and then ends, and notifyError is never called. -/
theorem C6_resend_strategy_fallback :
    (∀ (request : ResendRequest) (source : String) (strat : ResendStrategy)
        (rest : List ResendStrategy),
      (satisfactory (strat request source) = true →
        loopThruResendStrategies request source (strat :: rest)
          = { pushed := (strat request source).items, notified := 0, tried := 1 })
      ∧ (satisfactory (strat request source) = false →
        loopThruResendStrategies request source (strat :: rest)
          = { pushed := (strat request source).items
                ++ (loopThruResendStrategies request source rest).pushed
              notified :=
                (if (strat request source).termination = StreamTermination.errored
                  then 1 else 0)
                + (loopThruResendStrategies request source rest).notified
              tried := 1 + (loopThruResendStrategies request source rest).tried }))
    ∧ (∀ s : ResponseStream,
        satisfactory s = true ↔
          (s.termination = StreamTermination.ended ∧ s.items ≠ []))
    ∧ (∀ (request : ResendRequest) (source : String) (m1 m2 : Nat),
        loopThruResendStrategies request source
          [fun _ _ => { items := [], termination := StreamTermination.ended },
           fun _ _ => { items := [m1, m2], termination := StreamTermination.ended }]
          = { pushed := [m1, m2], notified := 0, tried := 2 }) := by
  refine ⟨?_, satisfactory_iff, ?_⟩
  · intro request source strat rest
    constructor
    · intro hsat
      have hterm : (strat request source).termination = StreamTermination.ended :=
        ((satisfactory_iff (strat request source)).mp hsat).1
      rw [loopThru_cons, if_pos hsat, readStream_ended _ hterm]
    · intro hsat
      rw [loopThru_cons, if_neg (by simp [hsat])]
      cases hterm : (strat request source).termination with
      | ended =>
        rw [readStream_ended _ hterm]
        simp
      | errored =>
        rw [readStream_errored _ hterm]
        simp
  · intro request source m1 m2
    rfl

theorem lookup_assocErase_self {α : Type} :
    ∀ (l : List (String × α)) (k : String), (assocErase l k).lookup k = none
  | [], _ => rfl
  | (a, x) :: l, k => by
    by_cases hak : a = k
    · subst hak
      rw [show assocErase ((a, x) :: l) a = assocErase l a from by
        unfold assocErase
        rw [List.filter_cons, if_neg (by simp)]]
      exact lookup_assocErase_self l a
    · rw [assocErase_cons_ne a k x l hak, List.lookup_cons]
      have hka : (k == a) = false := beq_eq_false_iff_ne.mpr (Ne.symm hak)
      simp only [hka]
      exact lookup_assocErase_self l k

theorem lookup_assocErase_ne {α : Type} :
    ∀ (l : List (String × α)) (k m : String), m ≠ k →
      (assocErase l k).lookup m = l.lookup m
  | [], _, _, _ => rfl
  | (a, x) :: l, k, m, hmk => by
    by_cases hak : a = k
    · subst hak
      rw [show assocErase ((a, x) :: l) a = assocErase l a from by
        unfold assocErase
        rw [List.filter_cons, if_neg (by simp)]]
      rw [List.lookup_cons]
      have hma : (m == a) = false := beq_eq_false_iff_ne.mpr hmk
      simp only [hma]
      exact lookup_assocErase_ne l a m hmk
    · rw [assocErase_cons_ne a k x l hak, List.lookup_cons, List.lookup_cons]
      cases hma : m == a with
      | true => rfl
      | false => exact lookup_assocErase_ne l k m hmk

/-- Claim C7: cancelling an in-flight resend context sets its stop flag and
destroys its current downstream stream; cancelling by source id cancels every
outstanding context of that source, removes them all from the bookkeeping
(other sources untouched), and returns the list of their original
requests. -/
theorem C7_cancellation :
    (∀ ctx : ResendCtx,
      (ctxCancel ctx).stop = true
      ∧ (ctxCancel ctx).request = ctx.request
      ∧ ∀ s, ctx.responseStream = some s →
          (ctxCancel ctx).responseStream = some { s with destroyed := true })
    ∧ (∀ (b : ResendBookkeeper) (node : String),
        (cancelResendsOfNode b node).1
          = (getContexts b node).map (fun ctx => ctx.request)
        ∧ (cancelResendsOfNode b node).2.1.resends.lookup node = none
        ∧ (∀ m, m ≠ node →
            (cancelResendsOfNode b node).2.1.resends.lookup m = b.resends.lookup m)
        ∧ (cancelResendsOfNode b node).2.2 = (getContexts b node).map ctxCancel
        ∧ ∀ c ∈ (cancelResendsOfNode b node).2.2, c.stop = true) := by
  constructor
  · intro ctx
    refine ⟨rfl, rfl, ?_⟩
    intro s hs
    simp [ctxCancel, hs]
  · intro b node
    refine ⟨rfl, ?_, ?_, rfl, ?_⟩
    · exact lookup_assocErase_self b.resends node
    · intro m hm
      exact lookup_assocErase_ne b.resends node m hm
    · intro c hc
      rcases List.mem_map.mp hc with ⟨ctx, _, hctx⟩
      rw [← hctx]
      rfl

theorem findQuietCheck_finds (P : Nat) (s : TimedStream) :
    ∀ (fuel k j : Nat), k ≤ j → j < k + fuel →
      (quietWindow P s j && beforeEnd s (j * P)) = true →
      ∃ m, m ≤ j ∧ findQuietCheck P s fuel k = some m
  | 0, k, j, hkj, hlt, _ => absurd hlt (by omega)
  | fuel + 1, k, j, hkj, hlt, hj => by
    unfold findQuietCheck
    by_cases hk : (quietWindow P s k && beforeEnd s (k * P)) = true
    · exact ⟨k, hkj, by rw [if_pos hk]⟩
    · rw [if_neg hk]
      have hkj' : k + 1 ≤ j := by
        rcases Nat.eq_or_lt_of_le hkj with h | h
        · exact absurd (h ▸ hj) hk
        · omega
      exact findQuietCheck_finds P s fuel (k + 1) j hkj' (by omega) hj

/-- Counterexample to claim C8 as stated: under the default inactivity period
of 300000 ms this stream produces no item between instants 1 and 599999, a
silence far exceeding 300000 ms, yet every check window holds a data item, no
timeout error is ever emitted, and the read resolves normally at the end of
the stream. -/
theorem C8_silence_straddling_checks_counterexample :
    noDataIn cexSilentStream 1 599998 = true
    ∧ 300000 < 599998 - 1
    ∧ readTimed 300000 cexSilentStream
        = TimedReadOutcome.resolvedAtEnd true := by
  refine ⟨by decide, by decide, by decide⟩

/-- Claim C8 amended: the inactivity timer checks the stream every
`maxInactivityPeriodInMs` (default 300000 ms) and times it out when a full
check window passes without a data item, so a silence spanning two
consecutive checks, in particular any silence of length 2 * P entirely
before the stream's end, forces a timeout error no later than the end of
that silence, while a silence only slightly longer than P can escape; the
timeout error is routed to `notifyError(request, error)` and the strategy
loop continues with the next strategy. -/
theorem C8_inactivity_timeout :
    maxInactivityPeriodInMsDefault = 300000
    ∧ (∀ (P : Nat) (s : TimedStream) (a T : Nat),
        0 < P → s.endTime = some T → a + 2 * P < T →
        (∀ t ∈ s.dataTimes, t ≤ a ∨ a + 2 * P < t) →
        ∃ time, time ≤ a + 2 * P ∧ readTimed P s = TimedReadOutcome.timedOut time)
    ∧ (∀ (request : ResendRequest) (source : String) (strat : ResendStrategy)
        (rest : List ResendStrategy),
        (strat request source).termination = StreamTermination.errored →
        loopThruResendStrategies request source (strat :: rest)
          = { pushed := (strat request source).items
                ++ (loopThruResendStrategies request source rest).pushed
              notified := 1 + (loopThruResendStrategies request source rest).notified
              tried := 1 + (loopThruResendStrategies request source rest).tried }) := by
  refine ⟨rfl, ?_, ?_⟩
  · intro P s a T hP hend hfar hdata
    obtain ⟨q, hle, hlt⟩ : ∃ q, q * P ≤ a ∧ a < q * P + P :=
      ⟨a / P, Nat.div_mul_le_self a P, Nat.lt_div_mul_add hP⟩
    have hk0P : (q + 2) * P ≤ a + 2 * P := by
      rw [Nat.add_mul]
      linarith
    have hquiet : quietWindow P s (q + 2) = true := by
      unfold quietWindow
      rw [List.all_eq_true]
      intro t ht
      rcases hdata t ht with hta | hta
      · have hdec : decide ((q + 2 - 1) * P < t) = false := by
          simp only [decide_eq_false_iff_not]
          rw [show q + 2 - 1 = q + 1 from rfl, Nat.add_mul, Nat.one_mul]
          intro hc
          linarith
        rw [hdec]
        rfl
      · have hdec : decide (t ≤ (q + 2) * P) = false := by
          simp only [decide_eq_false_iff_not]
          rw [Nat.add_mul]
          intro hc
          linarith
        rw [hdec, Bool.and_false]
        rfl
    have hbefore : beforeEnd s ((q + 2) * P) = true := by
      unfold beforeEnd
      rw [hend]
      simp only [decide_eq_true_eq]
      rw [Nat.add_mul]
      linarith
    have hbound : q + 2 < 1 + searchBound P s := by
      unfold searchBound
      rw [hend]
      have hdiv : q + 2 ≤ T / P := by
        rw [Nat.le_div_iff_mul_le hP, Nat.add_mul]
        linarith
      linarith
    obtain ⟨m, hm, hfind⟩ := findQuietCheck_finds P s (searchBound P s) 1 (q + 2)
      (by omega) hbound (by rw [hquiet, hbefore]; rfl)
    refine ⟨m * P, ?_, ?_⟩
    · exact le_trans (Nat.mul_le_mul_right P hm) hk0P
    · unfold readTimed
      rw [hfind]
  · intro request source strat rest herr
    rw [loopThru_cons,
      if_neg (by simp [satisfactory, readStream_errored _ herr]),
      readStream_errored _ herr]

end Streamr
